import Mathlib

/-!
Verification of libqb's thread-safety interposition layer (lib/tsafe.c).

The file embeds the interposition engine shallowly:

* `TsafeState` holds the two gate globals `tsafe_disabled` / `tsafe_inited`
  (C `int32_t` flags that only ever hold 0 or 1, modelled as `Bool`, `true`
  meaning nonzero) and the environment snapshot `coro_environ` (a list of
  `List Char` strings, one per `"NAME=VALUE"` entry).
* `Eff` records the observable events of one call through the layer: lock
  operations on `tsafe_enabled_mutex`, reads and writes of the flag
  `tsafe_disabled`, symbol resolution via `_get_real_func_`, invocation of a
  real implementation with an explicit argument list, a failed `assert`, and
  a jump through a NULL function pointer.
* The wrapped functions all instantiate one dispatch pattern; `wrapperCall`
  embeds that pattern, with `Body` recording the three shapes that occur in
  the source: the standard shape (`if (!tsafe_inited || tsafe_disabled)`
  resolve-once, forward, return; else `assert(0)`), the `crypt` shape which
  forwards `real_crypt(salt)` only, and the non-BSD `setgrent` shape which
  forwards and then falls through to `assert(0)`.
* `getenv` and `pthread_create` get their own embeddings, as in the source.

The modelled build configuration is the Linux/glibc one: `QB_LINUX` defined,
`QB_BSD` undefined, and all the `HAVE_*` guards satisfied.
-/

namespace Tsafe

/-- Values passed to and returned from wrapped C functions: strings,
integers and raw pointers. -/
inductive Arg where
  | s (cs : List Char)
  | i (n : Int)
  | p (a : Nat)
  deriving DecidableEq, Repr

/-- Observable events of one call through the interposition layer. -/
inductive Eff where
  | lock
  | unlock
  | readFlag
  | writeFlag
  | resolve (sym : String)
  | call (sym : String) (args : List Arg)
  | abort
  | fault (sym : String)
  deriving DecidableEq, Repr

/-- Outcome of one call: a returned value, process termination by a failed
`assert(0)`, or a crash from jumping through a NULL function pointer. -/
inductive Outcome (α : Type) where
  | ok (v : α)
  | aborted
  | faulted
  deriving DecidableEq, Repr

/-- Result of one call through a wrapper: the per-symbol cached pointer
(`none` models the NULL pointer) after the call, the event trace of the
call, and its outcome. -/
structure CallRes (α : Type) where
  cache : Option Nat
  trace : List Eff
  out : Outcome α
  deriving DecidableEq, Repr

/-- The gate globals of tsafe.c (lines 69-71): `tsafe_disabled` (initially
1), `tsafe_inited` (initially 0) and the snapshot `coro_environ`. -/
structure TsafeState where
  tsafe_disabled : Bool
  tsafe_inited : Bool
  coro_environ : List (List Char)
  deriving DecidableEq, Repr

/-- The state at program start: `tsafe_disabled = 1`, `tsafe_inited = 0`,
no snapshot. -/
def startState : TsafeState := ⟨true, false, []⟩

/-- `qb_tsafe_init` (lines 82-104): duplicate the environment vector into
`coro_environ`, register the fork hooks, and set `tsafe_disabled = 1`,
`tsafe_inited = 1`. -/
def qb_tsafe_init (envp : List (List Char)) (s : TsafeState) : TsafeState :=
  { s with coro_environ := envp, tsafe_disabled := true, tsafe_inited := true }

/-- `qb_tsafe_on` (lines 131-136): set `tsafe_disabled = 0` under the lock. -/
def qb_tsafe_on (s : TsafeState) : TsafeState :=
  { s with tsafe_disabled := false }

/-- `qb_tsafe_off` (lines 124-129): set `tsafe_disabled = 1` under the lock. -/
def qb_tsafe_off (s : TsafeState) : TsafeState :=
  { s with tsafe_disabled := true }

/-- `atfork_prepare` (lines 138-141): acquires the lock; does not touch the
flags. -/
def atfork_prepare (s : TsafeState) : TsafeState := s

/-- `atfork_parent` (lines 143-146): releases the lock; does not touch the
flags. -/
def atfork_parent (s : TsafeState) : TsafeState := s

/-- `atfork_child` (lines 148-154): in the child after fork, if
`tsafe_inited && !tsafe_disabled` then set `tsafe_disabled = 1`; release the
lock. -/
def atfork_child (s : TsafeState) : TsafeState :=
  if s.tsafe_inited && !s.tsafe_disabled then { s with tsafe_disabled := true } else s

/-- Lock/flag event trace of `qb_tsafe_on` (lines 131-136). -/
def qb_tsafe_on_trace : List Eff := [Eff.lock, Eff.writeFlag, Eff.unlock]

/-- Lock/flag event trace of `qb_tsafe_off` (lines 124-129). -/
def qb_tsafe_off_trace : List Eff := [Eff.lock, Eff.writeFlag, Eff.unlock]

/-- Lock/flag event trace of `qb_tsafe_init`: the write `tsafe_disabled = 1`
at line 102 happens with no lock held (`pthread_spin_init` initializes the
lock, it does not acquire it). -/
def qb_tsafe_init_trace : List Eff := [Eff.writeFlag]

/-- Lock/flag event trace of `atfork_prepare`. -/
def atfork_prepare_trace : List Eff := [Eff.lock]

/-- Lock/flag event trace of `atfork_parent`. -/
def atfork_parent_trace : List Eff := [Eff.unlock]

/-- Lock/flag event trace of `atfork_child`: the condition
`tsafe_inited && !tsafe_disabled` short-circuits, so `tsafe_disabled` is
read only when `tsafe_inited` is nonzero; the write happens only when the
condition holds; the lock (taken by `atfork_prepare`) is then released. -/
def atfork_child_trace (inited disabled : Bool) : List Eff :=
  (if inited then [Eff.readFlag] else []) ++
    (if inited && !disabled then [Eff.writeFlag] else []) ++ [Eff.unlock]

/-- The dispatch condition `!tsafe_inited || tsafe_disabled` shared by every
wrapper: true exactly when the gate is not active. -/
def gateOff (inited disabled : Bool) : Bool := !inited || disabled

/-- Events of evaluating `!tsafe_inited || tsafe_disabled` (respectively
`tsafe_inited && tsafe_disabled` in `pthread_create`): by C short-circuit
evaluation, the flag `tsafe_disabled` is read only when `tsafe_inited` is
nonzero. -/
def gateCheckTrace (inited : Bool) : List Eff :=
  if inited then [Eff.readFlag] else []

/-- The per-symbol pointer cache after the resolve-once step
`if (real_f == NULL) real_f = _get_real_func_(name);`: a NULL cache is
filled from the resolver, a non-NULL cache is kept. -/
def resolvedCache (sym : String) (resolver : String → Option Nat)
    (cache : Option Nat) : Option Nat :=
  match cache with
  | none => resolver sym
  | some a => some a

/-- Events of the resolve-once step: `_get_real_func_` runs exactly when the
cached pointer is NULL. -/
def resolveTrace (sym : String) (cache : Option Nat) : List Eff :=
  match cache with
  | none => [Eff.resolve sym]
  | some _ => []

/-- The three wrapper shapes occurring in the abort-when-enabled catalog:
`standard` is the common pattern; `dropFirstArg` is the `crypt` wrapper
(lines 323-334), whose forwarding call is `real_crypt(salt)` — the first of
its two arguments is dropped; `forwardThenAssert` is the non-BSD `setgrent`
wrapper (lines 948-958), whose forwarding path calls `real_setgrent()` and
then falls through to `assert(0)`. -/
inductive Body where
  | standard
  | dropFirstArg
  | forwardThenAssert
  deriving DecidableEq, Repr

/-- The argument list a wrapper passes to its resolved real implementation. -/
def forwardedArgs : Body → List Arg → List Arg
  | Body.dropFirstArg, args => args.drop 1
  | Body.standard, args => args
  | Body.forwardThenAssert, args => args

/-- One call through an abort-when-enabled wrapper (the pattern of lines
246-259 and all its siblings): when `!tsafe_inited || tsafe_disabled`,
resolve the real implementation once and forward to it (jumping through
NULL if resolution failed); otherwise `assert(0)`. -/
def wrapperCall (b : Body) (sym : String) (resolver : String → Option Nat)
    (real : Nat → List Arg → Arg) (inited disabled : Bool)
    (cache : Option Nat) (args : List Arg) : CallRes Arg :=
  if gateOff inited disabled then
    match resolvedCache sym resolver cache with
    | none =>
      ⟨none, gateCheckTrace inited ++ resolveTrace sym cache ++ [Eff.fault sym],
        Outcome.faulted⟩
    | some a =>
      match b with
      | Body.forwardThenAssert =>
        ⟨some a,
          gateCheckTrace inited ++ resolveTrace sym cache ++
            [Eff.call sym (forwardedArgs b args), Eff.abort],
          Outcome.aborted⟩
      | _ =>
        ⟨some a,
          gateCheckTrace inited ++ resolveTrace sym cache ++
            [Eff.call sym (forwardedArgs b args)],
          Outcome.ok (real a (forwardedArgs b args))⟩
  else
    ⟨cache, gateCheckTrace inited ++ [Eff.abort], Outcome.aborted⟩

/-- The abort-when-enabled catalog of tsafe.c (lines 243-1085) in the Linux
build: each wrapped symbol with the shape of its wrapper body. `catgets` is
not in this catalog: it is the unconditional stub. `getenv` and
`pthread_create` have their own policies and embeddings below. -/
def abortCatalog : List (String × Body) :=
  [("setenv", Body.standard), ("unsetenv", Body.standard),
   ("putenv", Body.standard), ("asctime", Body.standard),
   ("basename", Body.standard), ("crypt", Body.dropFirstArg),
   ("ctermid", Body.standard), ("ctime", Body.standard),
   ("dirname", Body.standard), ("drand48", Body.standard),
   ("encrypt", Body.standard), ("endgrent", Body.standard),
   ("endpwent", Body.standard), ("getdate", Body.standard),
   ("getgrent", Body.standard), ("getgrgid", Body.standard),
   ("getgrnam", Body.standard), ("gethostent", Body.standard),
   ("getlogin", Body.standard), ("getnetbyaddr", Body.standard),
   ("getnetbyname", Body.standard), ("getnetent", Body.standard),
   ("getprotobyname", Body.standard), ("getprotobynumber", Body.standard),
   ("getprotoent", Body.standard), ("getpwent", Body.standard),
   ("getpwnam", Body.standard), ("getpwuid", Body.standard),
   ("getservent", Body.standard), ("getservbyname", Body.standard),
   ("getservbyport", Body.standard), ("getutxent", Body.standard),
   ("getutxid", Body.standard), ("getutxline", Body.standard),
   ("gmtime", Body.standard), ("hcreate", Body.standard),
   ("hsearch", Body.standard), ("hdestroy", Body.standard),
   ("inet_ntoa", Body.standard), ("l64a", Body.standard),
   ("lgamma", Body.standard), ("lgammaf", Body.standard),
   ("lgammal", Body.standard), ("localeconv", Body.standard),
   ("localtime", Body.standard), ("lrand48", Body.standard),
   ("mrand48", Body.standard), ("pututxline", Body.standard),
   ("rand", Body.standard), ("readdir", Body.standard),
   ("setgrent", Body.forwardThenAssert), ("setkey", Body.standard),
   ("setpwent", Body.standard), ("setutxent", Body.standard),
   ("strerror", Body.standard), ("strsignal", Body.standard),
   ("strtok", Body.standard), ("system", Body.standard),
   ("tmpnam", Body.standard), ("ttyname", Body.standard)]

/-- C `strchr(s, '=')` on a NUL-terminated string modelled as a list:
the index of the first `'='`, or `none` when there is none. -/
def strchr (s : List Char) : Option Nat :=
  match s with
  | [] => none
  | c :: rest => if c = '=' then some 0 else (strchr rest).map (fun i => i + 1)

/-- The match test of the `getenv` snapshot scan (lines 226-233):
`name_len = eq - coro_environ[entry]` and the entry matches when
`name_len == strlen(name) && strncmp(name, coro_environ[entry], name_len) == 0`.
An entry without `'='` makes the C code compute `eq - entry` from a NULL
`eq` (undefined behavior); the claims about this path all assume every entry
contains `'='`, and the model treats such an entry as not matching. -/
def entryMatches (name entry : List Char) : Bool :=
  match strchr entry with
  | some i => i == name.length && entry.take i == name
  | none => false

/-- The snapshot scan of `getenv` (lines 225-240): find the first entry
whose segment before its first `'='` equals `name` and return the suffix
just past that `'='` (`eq + 1`); return NULL (`none`) when no entry
matches. -/
def snapshotLookup (env : List (List Char)) (name : List Char) :
    Option (List Char) :=
  match env with
  | [] => none
  | e :: rest =>
    if entryMatches name e then some (e.drop ((strchr e).getD 0 + 1))
    else snapshotLookup rest name

/-- The `getenv` wrapper (lines 211-241): when `!tsafe_inited ||
tsafe_disabled`, resolve the real `getenv` once and forward to it; otherwise
answer from the snapshot without resolving or invoking anything. -/
def getenv (resolver : String → Option Nat)
    (realGetenv : Nat → List Char → Option (List Char))
    (inited disabled : Bool) (env : List (List Char)) (cache : Option Nat)
    (name : List Char) : CallRes (Option (List Char)) :=
  if gateOff inited disabled then
    match resolvedCache "getenv" resolver cache with
    | none =>
      ⟨none, gateCheckTrace inited ++ resolveTrace "getenv" cache ++
        [Eff.fault "getenv"], Outcome.faulted⟩
    | some a =>
      ⟨some a, gateCheckTrace inited ++ resolveTrace "getenv" cache ++
        [Eff.call "getenv" [Arg.s name]], Outcome.ok (realGetenv a name)⟩
  else
    ⟨cache, gateCheckTrace inited, Outcome.ok (snapshotLookup env name)⟩

/-- Result of one call through the `pthread_create` wrapper: the
`tsafe_disabled` flag after the call, the pointer cache after the call, the
event trace and the outcome. -/
structure PCRes where
  disabled : Bool
  cache : Option Nat
  trace : List Eff
  out : Outcome Arg
  deriving DecidableEq, Repr

/-- The `pthread_create` wrapper (lines 180-196): if
`tsafe_inited && tsafe_disabled` then `qb_tsafe_on()`; then resolve the real
`pthread_create` once and always invoke it. -/
def pthread_create (resolver : String → Option Nat)
    (real : Nat → List Arg → Arg) (inited disabled : Bool)
    (cache : Option Nat) (args : List Arg) : PCRes :=
  let flip := inited && disabled
  let disabled2 := if flip then false else disabled
  let ttr := gateCheckTrace inited ++ (if flip then qb_tsafe_on_trace else [])
  match resolvedCache "pthread_create" resolver cache with
  | none =>
    ⟨disabled2, none,
      ttr ++ resolveTrace "pthread_create" cache ++ [Eff.fault "pthread_create"],
      Outcome.faulted⟩
  | some a =>
    ⟨disabled2, some a,
      ttr ++ resolveTrace "pthread_create" cache ++
        [Eff.call "pthread_create" args],
      Outcome.ok (real a args)⟩

/-- Iterated calls through the `pthread_create` wrapper with
`tsafe_inited = 1`, threading the flag and the cache. -/
def pthread_createRun (resolver : String → Option Nat)
    (real : Nat → List Arg → Arg) :
    Bool → Option Nat → List (List Arg) → Bool × Option Nat
  | d, c, [] => (d, c)
  | d, c, args :: rest =>
    let r := pthread_create resolver real true d c args
    pthread_createRun resolver real r.disabled r.cache rest

/-- Iterated calls through one abort-when-enabled wrapper, threading the
pointer cache; each element of `calls` gives the `tsafe_inited` and
`tsafe_disabled` flags seen by that call and its argument list. Returns the
final cache and the concatenated event trace. -/
def runCalls (b : Body) (sym : String) (resolver : String → Option Nat)
    (real : Nat → List Arg → Arg) :
    Option Nat → List (Bool × Bool × List Arg) → Option Nat × List Eff
  | cache, [] => (cache, [])
  | cache, (i, d, args) :: rest =>
    let r := wrapperCall b sym resolver real i d cache args
    let rst := runCalls b sym resolver real r.cache rest
    (rst.1, r.trace ++ rst.2)

/-- Lock discipline check over an event trace: scanning with the current
lock depth, every read and write of the gate flag must happen at positive
depth. -/
def flagAccessesLocked : Nat → List Eff → Bool
  | _, [] => true
  | d, Eff.lock :: tr => flagAccessesLocked (d + 1) tr
  | d, Eff.unlock :: tr => flagAccessesLocked (d - 1) tr
  | d, Eff.readFlag :: tr => decide (0 < d) && flagAccessesLocked d tr
  | d, Eff.writeFlag :: tr => decide (0 < d) && flagAccessesLocked d tr
  | d, Eff.resolve _ :: tr => flagAccessesLocked d tr
  | d, Eff.call _ _ :: tr => flagAccessesLocked d tr
  | d, Eff.abort :: tr => flagAccessesLocked d tr
  | d, Eff.fault _ :: tr => flagAccessesLocked d tr

/-- C1: for every entry point in the abort-when-enabled catalog, a call made
while the gate is enabled (after `qb_tsafe_init` and `qb_tsafe_on`, so
`tsafe_inited = 1` and `tsafe_disabled = 0`) reads the flag and immediately
fails the assertion: the whole trace is `[readFlag, abort]`, so the real
implementation is neither resolved nor invoked and the pointer cache is
untouched. -/
theorem c1_abort_when_enabled (envp : List (List Char)) (s0 : TsafeState)
    (p : String × Body) (hp : p ∈ abortCatalog)
    (resolver : String → Option Nat) (real : Nat → List Arg → Arg)
    (cache : Option Nat) (args : List Arg) :
    wrapperCall p.2 p.1 resolver real
      (qb_tsafe_on (qb_tsafe_init envp s0)).tsafe_inited
      (qb_tsafe_on (qb_tsafe_init envp s0)).tsafe_disabled cache args =
      ⟨cache, [Eff.readFlag, Eff.abort], Outcome.aborted⟩ := by
  simp [wrapperCall, gateOff, gateCheckTrace, qb_tsafe_on, qb_tsafe_init]

/-- Witness for C1 at the wrapped `setenv`. -/
theorem c1_abort_when_enabled_witness :
    wrapperCall Body.standard "setenv" (fun _ => some 1) (fun _ _ => Arg.i 0)
      (qb_tsafe_on (qb_tsafe_init [['P']] startState)).tsafe_inited
      (qb_tsafe_on (qb_tsafe_init [['P']] startState)).tsafe_disabled (some 1)
      [Arg.s ['A'], Arg.s ['B'], Arg.i 1] =
      ⟨some 1, [Eff.readFlag, Eff.abort], Outcome.aborted⟩ :=
  c1_abort_when_enabled [['P']] startState ("setenv", Body.standard)
    (by decide) (fun _ => some 1) (fun _ _ => Arg.i 0) (some 1)
    [Arg.s ['A'], Arg.s ['B'], Arg.i 1]

/-- C2: evaluation at the failing input. The non-BSD `setgrent` wrapper is
in the abort-when-enabled catalog, yet a call made while the gate is
DISABLED (`tsafe_inited = 1`, `tsafe_disabled = 1`) invokes the real
`setgrent` and then falls through to `assert(0)`: the assertion branch is
reachable with the gate disabled, contradicting the claim. -/
theorem c2_setgrent_disabled_aborts :
    ("setgrent", Body.forwardThenAssert) ∈ abortCatalog ∧
    wrapperCall Body.forwardThenAssert "setgrent" (fun _ => some 7)
      (fun _ _ => Arg.i 0) true true none [] =
      ⟨some 7,
        [Eff.readFlag, Eff.resolve "setgrent", Eff.call "setgrent" [],
          Eff.abort],
        Outcome.aborted⟩ := by
  exact ⟨by decide, by decide⟩

/-- C3: evaluation at the failing input. The `crypt` wrapper is in the
abort-when-enabled catalog, but on its forwarding path (gate disabled) it
calls the resolved real implementation with only `salt` — the argument list
is truncated, not passed through unmodified. -/
theorem c3_crypt_truncates_args :
    ("crypt", Body.dropFirstArg) ∈ abortCatalog ∧
    (wrapperCall Body.dropFirstArg "crypt" (fun _ => some 3)
      (fun _ _ => Arg.i 0) true true none [Arg.s ['k'], Arg.s ['s']]).trace =
      [Eff.readFlag, Eff.resolve "crypt", Eff.call "crypt" [Arg.s ['s']]] ∧
    forwardedArgs Body.dropFirstArg [Arg.s ['k'], Arg.s ['s']] ≠
      [Arg.s ['k'], Arg.s ['s']] := by
  exact ⟨by decide, by decide, by decide⟩

/-- With `tsafe_inited = 1`, one call through the `pthread_create` wrapper
always leaves `tsafe_disabled = 0`: if the flag was 1 the wrapper runs
`qb_tsafe_on`, and if it was 0 it stays 0. -/
theorem pthread_create_enables (resolver : String → Option Nat)
    (real : Nat → List Arg → Arg) (d : Bool) (c : Option Nat)
    (args : List Arg) :
    (pthread_create resolver real true d c args).disabled = false := by
  cases hr : resolvedCache "pthread_create" resolver c <;> cases d <;>
    simp [pthread_create, hr]

/-- Any nonempty sequence of `pthread_create` calls with `tsafe_inited = 1`
ends with `tsafe_disabled = 0`. -/
theorem pthread_createRun_enables (resolver : String → Option Nat)
    (real : Nat → List Arg → Arg) :
    ∀ (calls : List (List Arg)) (d : Bool) (c : Option Nat), calls ≠ [] →
      (pthread_createRun resolver real d c calls).1 = false := by
  intro calls
  induction calls with
  | nil => intro d c h; exact absurd rfl h
  | cons args rest ih =>
    intro d c _
    by_cases hr : rest = []
    · subst hr
      simp [pthread_createRun, pthread_create_enables]
    · simp only [pthread_createRun]
      exact ih _ _ hr

/-- C4: with `tsafe_inited = 1`, the first `pthread_create` call flips the
gate to enabled (`tsafe_disabled = 0`), any nonempty sequence of further
calls leaves it enabled, and only `qb_tsafe_off` sets the flag back; the
call itself is never refused — it never hits the assertion, and whenever the
real `pthread_create` is resolved it is invoked, whatever the gate state. -/
theorem c4_thread_spawn_trigger (resolver : String → Option Nat)
    (real : Nat → List Arg → Arg) (s : TsafeState) (cache : Option Nat)
    (args : List Arg) (h : s.tsafe_inited = true) :
    (pthread_create resolver real s.tsafe_inited s.tsafe_disabled cache
      args).disabled = false ∧
    (∀ calls : List (List Arg), calls ≠ [] →
      (pthread_createRun resolver real s.tsafe_disabled cache calls).1 =
        false) ∧
    (∀ d c, (pthread_create resolver real s.tsafe_inited d c args).out ≠
      Outcome.aborted) ∧
    (∀ d c a, resolvedCache "pthread_create" resolver c = some a →
      Eff.call "pthread_create" args ∈
        (pthread_create resolver real s.tsafe_inited d c args).trace) ∧
    (∀ t : TsafeState, (qb_tsafe_off t).tsafe_disabled = true) := by
  rw [h]
  refine ⟨pthread_create_enables resolver real _ _ _,
    fun calls hc => pthread_createRun_enables resolver real calls _ _ hc,
    ?_, ?_, fun t => rfl⟩
  · intro d c
    cases hr : resolvedCache "pthread_create" resolver c <;>
      simp [pthread_create, hr]
  · intro d c a ha
    cases c <;> cases d <;>
      simp_all [pthread_create, resolvedCache, resolveTrace, gateCheckTrace,
        qb_tsafe_on_trace]

/-- Witness for C4: two concrete calls starting from an initialized state
with the gate disabled. -/
theorem c4_thread_spawn_trigger_witness :
    (pthread_create (fun _ => some 4) (fun _ _ => Arg.i 0)
      (⟨true, true, []⟩ : TsafeState).tsafe_inited
      (⟨true, true, []⟩ : TsafeState).tsafe_disabled none []).disabled =
      false ∧
    (pthread_createRun (fun _ => some 4) (fun _ _ => Arg.i 0)
      (⟨true, true, []⟩ : TsafeState).tsafe_disabled none [[], []]).1 =
      false :=
  ⟨(c4_thread_spawn_trigger (fun _ => some 4) (fun _ _ => Arg.i 0)
      ⟨true, true, []⟩ none [] rfl).1,
   (c4_thread_spawn_trigger (fun _ => some 4) (fun _ _ => Arg.i 0)
      ⟨true, true, []⟩ none [] rfl).2.1 [[], []] (by decide)⟩

/-- C5: around a fork, the prepare/child hook pair leaves the child with
`tsafe_disabled = 1` whenever `tsafe_inited` is set — even if the gate was
enabled in the parent — without touching `tsafe_inited`; the
prepare/parent-after pair leaves the parent's state unchanged. -/
theorem c5_fork_child_disabled (s : TsafeState) (h : s.tsafe_inited = true) :
    (atfork_child (atfork_prepare s)).tsafe_disabled = true ∧
    (atfork_child (atfork_prepare s)).tsafe_inited = s.tsafe_inited ∧
    atfork_parent (atfork_prepare s) = s := by
  refine ⟨?_, ?_, rfl⟩ <;>
    cases hd : s.tsafe_disabled <;>
      simp [atfork_child, atfork_prepare, h, hd]

/-- Witness for C5 at a parent whose gate is enabled. -/
theorem c5_fork_child_disabled_witness :
    (atfork_child (atfork_prepare
      (⟨false, true, [['A']]⟩ : TsafeState))).tsafe_disabled = true :=
  (c5_fork_child_disabled ⟨false, true, [['A']]⟩ rfl).1

/-- C9: before `qb_tsafe_init` (`tsafe_inited = 0`), whatever the value of
the gate flag (even if `qb_tsafe_on` set it to enabled), every catalog entry
takes the forwarding path and invokes its resolved real implementation,
`pthread_create` leaves the flag unchanged and performs no flag write, and
`getenv` forwards to the real `getenv` instead of the snapshot. -/
theorem c9_uninitialized_forwards (resolver : String → Option Nat)
    (real : Nat → List Arg → Arg)
    (realGetenv : Nat → List Char → Option (List Char))
    (cache : Option Nat) (args : List Arg) (disabled : Bool)
    (env : List (List Char)) (name : List Char) :
    (∀ p ∈ abortCatalog, ∀ a, resolvedCache p.1 resolver cache = some a →
      Eff.call p.1 (forwardedArgs p.2 args) ∈
        (wrapperCall p.2 p.1 resolver real false disabled cache args).trace) ∧
    ((pthread_create resolver real false disabled cache args).disabled =
      disabled ∧
      Eff.writeFlag ∉
        (pthread_create resolver real false disabled cache args).trace) ∧
    (∀ a, resolvedCache "getenv" resolver cache = some a →
      (getenv resolver realGetenv false disabled env cache name).out =
        Outcome.ok (realGetenv a name)) := by
  refine ⟨?_, ?_, ?_⟩
  · rintro ⟨sym, b⟩ hp a ha
    cases cache <;> cases b <;>
      simp_all [wrapperCall, gateOff, gateCheckTrace, resolveTrace,
        resolvedCache]
  · cases hr : resolvedCache "pthread_create" resolver cache <;>
      cases cache <;>
        simp_all [pthread_create, gateCheckTrace, resolveTrace,
          resolvedCache, qb_tsafe_on_trace]
  · intro a ha
    simp [getenv, gateOff, ha]

/-- Witness for C9: the wrapped `setenv`, `pthread_create` and `getenv`
before initialization, with the gate flag set to enabled. -/
theorem c9_uninitialized_forwards_witness :
    Eff.call "setenv" [Arg.s ['A']] ∈
      (wrapperCall Body.standard "setenv" (fun _ => some 6)
        (fun _ _ => Arg.i 0) false false (some 6) [Arg.s ['A']]).trace ∧
    (getenv (fun _ => some 6) (fun _ _ => some ['x']) false false [] (some 6)
      ['A']).out = Outcome.ok (some ['x']) :=
  ⟨(c9_uninitialized_forwards (fun _ => some 6) (fun _ _ => Arg.i 0)
      (fun _ _ => some ['x']) (some 6) [Arg.s ['A']] false [] ['A']).1
      ("setenv", Body.standard) (by decide) 6 rfl,
   (c9_uninitialized_forwards (fun _ => some 6) (fun _ _ => Arg.i 0)
      (fun _ _ => some ['x']) (some 6) [Arg.s ['A']] false [] ['A']).2.2 6
      rfl⟩

/-- The first `'='` of `name ++ '=' :: v` sits at index `name.length` when
`name` itself contains no `'='`. -/
theorem strchr_append (name v : List Char) (hn : '=' ∉ name) :
    strchr (name ++ '=' :: v) = some name.length := by
  induction name with
  | nil => simp [strchr]
  | cons c cs ih =>
    have hc : ¬c = '=' := fun h => hn (h ▸ List.mem_cons_self c cs)
    have hcs : '=' ∉ cs := fun h => hn (List.mem_cons_of_mem c h)
    simp [strchr, hc, ih hcs]

/-- Dropping everything up to and including the first `'='` of
`name ++ '=' :: v` yields `v`. -/
theorem drop_past_eq (name v : List Char) :
    (name ++ '=' :: v).drop (name.length + 1) = v := by
  have h : name ++ '=' :: v = (name ++ ['=']) ++ v := by simp
  have h2 : name.length + 1 = (name ++ ['=']).length := by simp
  rw [h, h2, List.drop_left]

/-- An entry of the form `name ++ '=' :: v` passes the `getenv` match test
for `name` when `name` contains no `'='`. -/
theorem entryMatches_self (name v : List Char) (hn : '=' ∉ name) :
    entryMatches name (name ++ '=' :: v) = true := by
  unfold entryMatches
  rw [strchr_append name v hn]
  have ht : (name ++ '=' :: v).take name.length = name :=
    List.take_left name ('=' :: v)
  simp [ht]

/-- The snapshot scan finds `v` for `name` when the environment contains the
entry `name ++ '=' :: v` after a prefix of non-matching entries. -/
theorem snapshotLookup_found (l1 : List (List Char)) (name v : List Char)
    (l2 : List (List Char)) (hn : '=' ∉ name)
    (h1 : ∀ e ∈ l1, entryMatches name e = false) :
    snapshotLookup (l1 ++ (name ++ '=' :: v) :: l2) name = some v := by
  induction l1 with
  | nil =>
    simp only [List.nil_append, snapshotLookup, entryMatches_self name v hn,
      if_true, strchr_append name v hn, Option.getD_some]
    rw [drop_past_eq]
  | cons e l1 ih =>
    have he : entryMatches name e = false := h1 e (List.mem_cons_self e l1)
    have h1r : ∀ x ∈ l1, entryMatches name x = false := fun x hx =>
      h1 x (List.mem_cons_of_mem e hx)
    simp [snapshotLookup, he, ih h1r]

/-- The snapshot scan returns NULL exactly when no entry passes the match
test. -/
theorem snapshotLookup_eq_none (env : List (List Char)) (name : List Char) :
    snapshotLookup env name = none ↔
      ∀ e ∈ env, entryMatches name e = false := by
  induction env with
  | nil => simp [snapshotLookup]
  | cons e rest ih =>
    cases he : entryMatches name e <;> simp [snapshotLookup, he, ih]

/-- When the first matching entry is `e` with its first `'='` at index `i`,
the snapshot scan returns the suffix of `e` past index `i`. -/
theorem snapshotLookup_first (name : List Char) :
    ∀ (l1 : List (List Char)) (e : List Char) (l2 : List (List Char))
      (i : Nat), (∀ x ∈ l1, entryMatches name x = false) →
      entryMatches name e = true → strchr e = some i →
      snapshotLookup (l1 ++ e :: l2) name = some (e.drop (i + 1)) := by
  intro l1
  induction l1 with
  | nil =>
    intro e l2 i _ he hi
    simp [snapshotLookup, he, hi]
  | cons x l1 ih =>
    intro e l2 i h1 he hi
    have hx : entryMatches name x = false := h1 x (List.mem_cons_self x l1)
    have h1r : ∀ y ∈ l1, entryMatches name y = false := fun y hy =>
      h1 y (List.mem_cons_of_mem x hy)
    simp [snapshotLookup, hx, ih e l2 i h1r he hi]

/-- C6: with every entry of `envp` containing `'='` and `NAME` bound in it
(the first matching entry being `NAME ++ '=' :: v`), a `getenv` call after
`qb_tsafe_init envp` with the gate enabled returns exactly the captured
value `v`; its whole trace is the dispatch read — the real `getenv` is
neither resolved nor invoked, so the result holds for every behavior
`realGetenv` of the (possibly since-mutated) real environment. -/
theorem c6_snapshot_served (envp l1 l2 : List (List Char))
    (name v : List Char) (s0 : TsafeState) (resolver : String → Option Nat)
    (realGetenv : Nat → List Char → Option (List Char)) (cache : Option Nat)
    (henv : envp = l1 ++ (name ++ '=' :: v) :: l2) (hn : '=' ∉ name)
    (h1 : ∀ e ∈ l1, entryMatches name e = false)
    (hall : ∀ e ∈ envp, '=' ∈ e) :
    getenv resolver realGetenv
      (qb_tsafe_on (qb_tsafe_init envp s0)).tsafe_inited
      (qb_tsafe_on (qb_tsafe_init envp s0)).tsafe_disabled
      (qb_tsafe_on (qb_tsafe_init envp s0)).coro_environ cache name =
      ⟨cache, [Eff.readFlag], Outcome.ok (some v)⟩ := by
  subst henv
  simp [getenv, gateOff, gateCheckTrace, qb_tsafe_on, qb_tsafe_init,
    snapshotLookup_found l1 name v l2 hn h1]

/-- Witness for C6: the snapshot `["PATH=/bin"]`, looked up after
initialization and enabling, yields `/bin` even though the real `getenv`
would answer differently. -/
theorem c6_snapshot_served_witness :
    getenv (fun _ => some 1) (fun _ _ => some ['o', 't', 'h', 'e', 'r'])
      (qb_tsafe_on (qb_tsafe_init
        [['P', 'A', 'T', 'H', '=', '/', 'b', 'i', 'n']]
        startState)).tsafe_inited
      (qb_tsafe_on (qb_tsafe_init
        [['P', 'A', 'T', 'H', '=', '/', 'b', 'i', 'n']]
        startState)).tsafe_disabled
      (qb_tsafe_on (qb_tsafe_init
        [['P', 'A', 'T', 'H', '=', '/', 'b', 'i', 'n']]
        startState)).coro_environ none ['P', 'A', 'T', 'H'] =
      ⟨none, [Eff.readFlag], Outcome.ok (some ['/', 'b', 'i', 'n'])⟩ :=
  c6_snapshot_served [['P', 'A', 'T', 'H', '=', '/', 'b', 'i', 'n']] [] []
    ['P', 'A', 'T', 'H'] ['/', 'b', 'i', 'n'] startState (fun _ => some 1)
    (fun _ _ => some ['o', 't', 'h', 'e', 'r']) none (by decide) (by decide)
    (by decide) (by decide)

/-- C10: with the gate enabled and every snapshot entry containing `'='`,
`getenv` answers `Outcome.ok (snapshotLookup env name)` without resolving or
calling anything; that answer is NULL exactly when no entry's segment before
its first `'='` equals `name`, and otherwise it is the suffix of the first
matching stored entry just past that entry's first `'='` (a borrowed view
into the entry, not a copy). -/
theorem c10_getenv_enabled (env : List (List Char)) (name : List Char)
    (resolver : String → Option Nat)
    (realGetenv : Nat → List Char → Option (List Char)) (cache : Option Nat)
    (hall : ∀ e ∈ env, '=' ∈ e) :
    (getenv resolver realGetenv true false env cache name =
      ⟨cache, [Eff.readFlag], Outcome.ok (snapshotLookup env name)⟩) ∧
    (snapshotLookup env name = none ↔
      ∀ e ∈ env, entryMatches name e = false) ∧
    (∀ l1 e l2 i, env = l1 ++ e :: l2 →
      (∀ x ∈ l1, entryMatches name x = false) → entryMatches name e = true →
      strchr e = some i →
      snapshotLookup env name = some (e.drop (i + 1))) := by
  refine ⟨?_, snapshotLookup_eq_none env name, ?_⟩
  · simp [getenv, gateOff, gateCheckTrace]
  · intro l1 e l2 i henv h1 he hi
    subst henv
    exact snapshotLookup_first name l1 e l2 i h1 he hi

/-- Witness for C10: a two-entry snapshot, one missing name and one bound
name whose entry is `"AB=x=y"` (value starting just past the first `'='`). -/
theorem c10_getenv_enabled_witness :
    (getenv (fun _ => some 2) (fun _ _ => none) true false
      [['Z', '=', '1'], ['A', 'B', '=', 'x', '=', 'y']] none ['A', 'B'] =
      ⟨none, [Eff.readFlag],
        Outcome.ok (snapshotLookup
          [['Z', '=', '1'], ['A', 'B', '=', 'x', '=', 'y']] ['A', 'B'])⟩) ∧
    snapshotLookup [['Z', '=', '1'], ['A', 'B', '=', 'x', '=', 'y']]
      ['A', 'B'] = some (['A', 'B', '=', 'x', '=', 'y'].drop (2 + 1)) :=
  ⟨(c10_getenv_enabled [['Z', '=', '1'], ['A', 'B', '=', 'x', '=', 'y']]
      ['A', 'B'] (fun _ => some 2) (fun _ _ => none) none (by decide)).1,
   (c10_getenv_enabled [['Z', '=', '1'], ['A', 'B', '=', 'x', '=', 'y']]
      ['A', 'B'] (fun _ => some 2) (fun _ _ => none) none (by decide)).2.2
      [['Z', '=', '1']] ['A', 'B', '=', 'x', '=', 'y'] [] 2 rfl (by decide)
      (by decide) (by decide)⟩

/-- A call made with a non-NULL cached pointer keeps the cache and never
runs the resolver. -/
theorem wrapperCall_cached (b : Body) (sym : String)
    (resolver : String → Option Nat) (real : Nat → List Arg → Arg)
    (i d : Bool) (a : Nat) (args : List Arg) :
    (wrapperCall b sym resolver real i d (some a) args).cache = some a ∧
    Eff.resolve sym ∉
      (wrapperCall b sym resolver real i d (some a) args).trace := by
  cases b <;> cases i <;> cases d <;>
    simp [wrapperCall, gateOff, gateCheckTrace, resolveTrace, resolvedCache]

/-- A call made on the enabled (aborting) path leaves the cache unchanged
and never runs the resolver. -/
theorem wrapperCall_enabled_cache (b : Body) (sym : String)
    (resolver : String → Option Nat) (real : Nat → List Arg → Arg)
    (cache : Option Nat) (args : List Arg) :
    (wrapperCall b sym resolver real true false cache args).cache = cache ∧
    Eff.resolve sym ∉
      (wrapperCall b sym resolver real true false cache args).trace := by
  cases b <;>
    simp [wrapperCall, gateOff, gateCheckTrace, resolveTrace, resolvedCache]

/-- Count of resolver runs in a trace. -/
def resolveCount (sym : String) (tr : List Eff) : Nat :=
  tr.countP (fun e => decide (e = Eff.resolve sym))

/-- A sequence of calls starting from a non-NULL cached pointer never runs
the resolver. -/
theorem runCalls_cached (b : Body) (sym : String)
    (resolver : String → Option Nat) (real : Nat → List Arg → Arg)
    (a : Nat) :
    ∀ calls, resolveCount sym (runCalls b sym resolver real (some a)
      calls).2 = 0 ∧
      (runCalls b sym resolver real (some a) calls).1 = some a := by
  intro calls
  induction calls with
  | nil => simp [runCalls, resolveCount]
  | cons c rest ih =>
    obtain ⟨i, d, args⟩ := c
    have hc := wrapperCall_cached b sym resolver real i d a args
    simp only [runCalls, hc.1, resolveCount, List.countP_append]
    constructor
    · have h0 : (wrapperCall b sym resolver real i d (some a)
          args).trace.countP (fun e => decide (e = Eff.resolve sym)) = 0 := by
        rw [List.countP_eq_zero]
        intro x hx
        simp only [decide_eq_true_eq]
        intro hxe
        exact hc.2 (hxe ▸ hx)
      rw [h0]
      simpa [resolveCount] using (ih).1
    · simpa using (ih).2

/-- One call's resolver-run count and resulting cache, starting from a NULL
cache with a resolver that succeeds: the trace holds exactly one resolver
run and the cache ends up filled. -/
theorem wrapperCall_first_resolve (b : Body) (sym : String)
    (resolver : String → Option Nat) (real : Nat → List Arg → Arg)
    (i d : Bool) (a : Nat) (args : List Arg) (hres : resolver sym = some a) :
    resolveCount sym (wrapperCall b sym resolver real i d none args).trace ≤
      1 ∧
    ((wrapperCall b sym resolver real i d none args).cache = some a ∨
      (wrapperCall b sym resolver real i d none args).cache = none ∧
        resolveCount sym
          (wrapperCall b sym resolver real i d none args).trace = 0) := by
  cases b <;> cases i <;> cases d <;>
    simp [wrapperCall, gateOff, gateCheckTrace, resolveTrace, resolvedCache,
      hres, resolveCount]

/-- Full-sequence bound: from a NULL cache with a resolver that succeeds,
any sequence of calls runs the resolver at most once. -/
theorem runCalls_resolve_bound (b : Body) (sym : String)
    (resolver : String → Option Nat) (real : Nat → List Arg → Arg)
    (a : Nat) (hres : resolver sym = some a) :
    ∀ calls, resolveCount sym
      (runCalls b sym resolver real none calls).2 ≤ 1 := by
  intro calls
  induction calls with
  | nil => simp [runCalls, resolveCount]
  | cons c rest ih =>
    obtain ⟨i, d, args⟩ := c
    have hf := wrapperCall_first_resolve b sym resolver real i d a args hres
    simp only [runCalls, resolveCount, List.countP_append]
    rcases hf.2 with hsome | ⟨hnone, hzero⟩
    · have hrest := runCalls_cached b sym resolver real a rest
      rw [hsome]
      have : (runCalls b sym resolver real (some a) rest).2.countP
          (fun e => decide (e = Eff.resolve sym)) = 0 := hrest.1
      rw [this]
      simpa [resolveCount] using hf.1
    · rw [hnone]
      simp only [resolveCount] at hzero
      rw [hzero]
      simpa [resolveCount] using ih

/-- C7: for every wrapper, (a) once the resolver has succeeded the cached
pointer is reused and the resolver never runs again — over any sequence of
calls starting from a NULL cache it runs at most once, and a call with a
filled cache keeps it and performs no resolution; (b) when resolution fails
(the resolver returns NULL), the forwarding call jumps through the NULL
target and the process faults on that very use. -/
theorem c7_resolve_once (b : Body) (sym : String)
    (resolver : String → Option Nat) (real : Nat → List Arg → Arg) :
    (∀ a, resolver sym = some a → ∀ calls,
      resolveCount sym (runCalls b sym resolver real none calls).2 ≤ 1) ∧
    (∀ a i d args,
      (wrapperCall b sym resolver real i d (some a) args).cache = some a ∧
      Eff.resolve sym ∉
        (wrapperCall b sym resolver real i d (some a) args).trace) ∧
    (∀ i d args, resolver sym = none → gateOff i d = true →
      (wrapperCall b sym resolver real i d none args).out =
        Outcome.faulted) := by
  refine ⟨fun a ha calls => runCalls_resolve_bound b sym resolver real a ha
    calls, fun a i d args => wrapperCall_cached b sym resolver real i d a
    args, ?_⟩
  intro i d args hres hoff
  cases b <;>
    simp [wrapperCall, hoff, resolvedCache, hres]

/-- Witness for C7: three calls to the wrapped `setenv` (two with the gate
disabled, one with it enabled) resolve at most once; a filled cache is kept;
a failing resolver faults on the forwarding path. -/
theorem c7_resolve_once_witness :
    resolveCount "setenv" (runCalls Body.standard "setenv" (fun _ => some 5)
      (fun _ _ => Arg.i 0) none
      [(true, true, []), (true, true, []), (true, false, [])]).2 ≤ 1 ∧
    (wrapperCall Body.standard "setenv" (fun _ => some 5)
      (fun _ _ => Arg.i 0) true true (some 5) []).cache = some 5 ∧
    (wrapperCall Body.standard "setenv" (fun _ => none)
      (fun _ _ => Arg.i 0) true true none []).out = Outcome.faulted :=
  ⟨(c7_resolve_once Body.standard "setenv" (fun _ => some 5)
      (fun _ _ => Arg.i 0)).1 5 rfl
      [(true, true, []), (true, true, []), (true, false, [])],
   ((c7_resolve_once Body.standard "setenv" (fun _ => some 5)
      (fun _ _ => Arg.i 0)).2.1 5 true true []).1,
   (c7_resolve_once Body.standard "setenv" (fun _ => none)
      (fun _ _ => Arg.i 0)).2.2 true true [] rfl rfl⟩

/-- A trace that reads the flag with no lock held fails the lock-discipline
check. -/
theorem flagAccessesLocked_readFlag (tr : List Eff) :
    flagAccessesLocked 0 (Eff.readFlag :: tr) = false := by
  simp [flagAccessesLocked]

/-- Every abort-when-enabled wrapper called with `tsafe_inited = 1` begins
by reading `tsafe_disabled` with the lock not held, so its whole trace fails
the lock-discipline check. -/
theorem wrapperCall_dispatch_unlocked (b : Body) (sym : String)
    (resolver : String → Option Nat) (real : Nat → List Arg → Arg)
    (d : Bool) (cache : Option Nat) (args : List Arg) :
    flagAccessesLocked 0
      (wrapperCall b sym resolver real true d cache args).trace = false := by
  cases b <;> cases d <;> cases cache <;>
    cases hr : resolver sym <;>
      simp [wrapperCall, gateOff, gateCheckTrace, resolveTrace,
        resolvedCache, hr, flagAccessesLocked]

/-- C8 counterexample: the claim that every read of `tsafe_disabled` happens
under `tsafe_enabled_mutex` is false at concrete calls — the dispatch reads
at the top of the wrapped `setenv` (line 251), `getenv` (line 219) and
`pthread_create` (line 188) all happen with the lock not held. -/
theorem c8_counterexample :
    flagAccessesLocked 0 ((wrapperCall Body.standard "setenv"
      (fun _ => some 2) (fun _ _ => Arg.i 0) true true (some 2)
      [Arg.s ['A'], Arg.s ['B'], Arg.i 1]).trace) = false ∧
    flagAccessesLocked 0 ((getenv (fun _ => some 2) (fun _ _ => none) true
      false [['A', '=', '1']] none ['A']).trace) = false ∧
    flagAccessesLocked 0 ((pthread_create (fun _ => some 2)
      (fun _ _ => Arg.i 0) true true none []).trace) = false := by
  exact ⟨by decide, by decide, by decide⟩

/-- C8 amended: the writes of `tsafe_disabled` performed by `qb_tsafe_on`,
`qb_tsafe_off` and the fork-hook protocol happen while holding
`tsafe_enabled_mutex`, but the dispatch reads at the top of every
intercepted entry point (the catalog wrappers, `getenv` and
`pthread_create`, once `tsafe_inited = 1`) and the write in `qb_tsafe_init`
happen without the lock. -/
theorem c8_amended_lock_discipline :
    flagAccessesLocked 0 qb_tsafe_on_trace = true ∧
    flagAccessesLocked 0 qb_tsafe_off_trace = true ∧
    (∀ i d, flagAccessesLocked 0
      (atfork_prepare_trace ++ atfork_child_trace i d) = true) ∧
    flagAccessesLocked 0 (atfork_prepare_trace ++ atfork_parent_trace) =
      true ∧
    flagAccessesLocked 0 qb_tsafe_init_trace = false ∧
    (∀ p ∈ abortCatalog, ∀ (resolver : String → Option Nat)
      (real : Nat → List Arg → Arg) (d : Bool) (cache : Option Nat)
      (args : List Arg),
      flagAccessesLocked 0
        (wrapperCall p.2 p.1 resolver real true d cache args).trace =
        false) ∧
    (∀ (resolver : String → Option Nat)
      (realGetenv : Nat → List Char → Option (List Char))
      (env : List (List Char)) (cache : Option Nat) (name : List Char)
      (d : Bool),
      flagAccessesLocked 0
        (getenv resolver realGetenv true d env cache name).trace = false) ∧
    (∀ (resolver : String → Option Nat) (real : Nat → List Arg → Arg)
      (cache : Option Nat) (args : List Arg) (d : Bool),
      flagAccessesLocked 0
        (pthread_create resolver real true d cache args).trace = false) := by
  refine ⟨rfl, rfl, ?_, rfl, rfl, ?_, ?_, ?_⟩
  · intro i d
    cases i <;> cases d <;> rfl
  · intro p _ resolver real d cache args
    exact wrapperCall_dispatch_unlocked p.2 p.1 resolver real d cache args
  · intro resolver realGetenv env cache name d
    cases d <;> cases cache <;> cases hr : resolver "getenv" <;>
      simp [getenv, gateOff, gateCheckTrace, resolveTrace, resolvedCache,
        hr, flagAccessesLocked]
  · intro resolver real cache args d
    cases d <;> cases cache <;> cases hr : resolver "pthread_create" <;>
      simp [pthread_create, gateCheckTrace, resolveTrace, resolvedCache,
        hr, flagAccessesLocked, qb_tsafe_on_trace]

/-- Witness for the amended C8 at the fork protocol with an enabled gate and
at a concrete `setenv` dispatch. -/
theorem c8_amended_lock_discipline_witness :
    flagAccessesLocked 0
      (atfork_prepare_trace ++ atfork_child_trace true false) = true ∧
    flagAccessesLocked 0 ((wrapperCall Body.standard "setenv"
      (fun _ => some 2) (fun _ _ => Arg.i 0) true true (some 2)
      []).trace) = false :=
  ⟨c8_amended_lock_discipline.2.2.1 true false,
   c8_amended_lock_discipline.2.2.2.2.2.1 ("setenv", Body.standard)
     (by decide) (fun _ => some 2) (fun _ _ => Arg.i 0) true (some 2) []⟩

end Tsafe
